import Mathlib

/-! Shallow embedding of the WebGPU MatMul program generator / dispatch planner
(`onnxruntime/core/providers/webgpu/math/matmul.cc`) and of the
non-max-suppression overlap helper
(`onnxruntime/core/providers/cpu/object_detection/non_max_suppression_helper.h`).

Tensor shapes are lists of natural numbers; `List.prod` is `TensorShape::Size()`
(the empty shape has size 1, as in the source).  Machine integers are modelled
by `Nat` (all quantities involved are non-negative and far below 2^32 except
where the binary32 rounding of the dispatch computation is modelled explicitly,
see `rnd24`).
-/

namespace OrtMatMul

/-- Modelled from the spec: `GetMaxComponents` is declared outside the provided
sources (webgpu utility header); per the spec it returns 4 when `d % 4 == 0`,
else 2 when `d % 2 == 0`, else 1. -/
def GetMaxComponents (d : Nat) : Nat :=
  if d % 4 = 0 then 4 else if d % 2 = 0 then 2 else 1

/-- Modelled from the spec: the pairwise broadcast rule of
`MatMulComputeHelper` (declared outside the provided sources): right-aligned,
shorter list left-padded with 1s; each aligned pair must be equal or contain a
1; the result takes the non-1 value (or 1 if both are 1). -/
def broadcastDims (a b : List Nat) : Option (List Nat) :=
  let n := max a.length b.length
  let a2 := List.replicate (n - a.length) 1 ++ a
  let b2 := List.replicate (n - b.length) 1 ++ b
  (a2.zip b2).mapM (fun p =>
    if p.1 = p.2 then some p.1
    else if p.1 = 1 then some p.2
    else if p.2 = 1 then some p.1
    else none)

/-- The resolved shape information `{M, N, K, output_shape}` of
`MatMulComputeHelper`. -/
structure MatMulShapeInfo where
  M : Nat
  N : Nat
  K : Nat
  outputShape : List Nat
deriving DecidableEq, Repr

/-- Modelled from the spec: `MatMulComputeHelper::Compute` is declared outside
the provided sources.  For inputs of rank at least 2 it validates that A's last
dimension equals B's second-to-last dimension (`K`), broadcasts the outer
(batch) dimensions pairwise, and produces `output_shape = outer ++ [M, N]`.
(The implicit rank-1 promotion mentioned by the spec is outside the modelled
domain; every claim uses ranks at least 2.) -/
def matmulComputeHelper (aShape bShape : List Nat) : Option MatMulShapeInfo :=
  if 2 ≤ aShape.length ∧ 2 ≤ bShape.length then
    let ka := aShape.getD (aShape.length - 1) 0
    let m := aShape.getD (aShape.length - 2) 0
    let kb := bShape.getD (bShape.length - 2) 0
    let n := bShape.getD (bShape.length - 1) 0
    if ka = kb then
      (broadcastDims (aShape.take (aShape.length - 2))
                     (bShape.take (bShape.length - 2))).map
        (fun outer => { M := m, N := n, K := ka, outputShape := outer ++ [m, n] })
    else none
  else none

/-- `a_shape.SizeToDimension(NumDimensions() - 2)`: the product of all but the
last two dimensions (the batch size of one input), from matmul.cc line 202. -/
def sizeToDimMinus2 (s : List Nat) : Nat := (s.take (s.length - 2)).prod

/-- Round a natural number to 24 significant bits, round-to-nearest,
ties-to-even: `s` is the excess bit count (the least `t` with
`n < 2 ^ (24 + t)`), and the low `s` bits are rounded away.  This is exactly
the value of `static_cast<float>(n)` for a non-negative integer `n` under
IEEE-754 binary32 (24-bit significand). -/
def rnd24 (n : Nat) : Nat :=
  if n < 16777216 then n
  else
    let s := ((List.range 64).find? (fun t => n < 2 ^ (24 + t))).getD 64
    let q := n / 2 ^ s
    let r := n % 2 ^ s
    if 2 * r > 2 ^ s ∨ (2 * r = 2 ^ s ∧ q % 2 = 1) then (q + 1) * 2 ^ s
    else q * 2 ^ s

/-- Exact integer ceiling division. -/
def ceilDivNat (a b : Nat) : Nat := (a + b - 1) / b

/-- Models `(uint32_t)ceil(static_cast<float>(n) / d)` for a power-of-two
divisor `d` (matmul.cc lines 185 and 270-272; the divisor there is a
workgroup-size constant times an elements-per-thread value, both powers of
two).  The int-to-float conversion rounds `n` to 24 significand bits
(`rnd24`); division of a binary32 value by a power of two and `ceil` are then
exact, so the computed value is the exact ceiling of `rnd24 n / d`. -/
def dispatchFloat (n d : Nat) : Nat := ceilDivNat (rnd24 n) d

/-- Modelled from the spec: `ShaderHelper::GuardAgainstOutOfBoundsWorkgroupSizes`
(declared outside the provided sources) emits a bounds check that discards any
thread whose linear index exceeds the given bound; its text depends only on the
bound expression. -/
def guardAgainstOOB (bound : String) : String :=
  "if (global_idx >= " ++ bound ++ ") \x7b return; \x7d\n"

/-- Modelled from the spec: `ShaderIndicesHelper::OffsetToIndices` (declared
outside the provided sources) emits an offset-to-coordinates conversion whose
text depends only on the variable name and its rank, not on dimension
values. -/
def offsetToIndices (name : String) (rank : Nat) (offsetExpr : String) : String :=
  name ++ "_offset_to_indices_rank" ++ toString rank ++ "(" ++ offsetExpr ++ ")"

/-- Modelled from the spec: `ConvertOutputBatchIndicesToInputBatchIndices`
(declared outside the provided sources) emits, per input, the broadcast mapping
from output batch coordinates to that input's batch coordinates; per the spec
it is purely a function of the variable name and the ranks involved, not of
concrete dimension values. -/
def convertBatchIndices (name : String) (inBatchRank outBatchRank : Nat)
    (idxVar : String) : String :=
  "set_batch_indices_" ++ name ++ "_rank" ++ toString inBatchRank ++ "_from_rank" ++
    toString outBatchRank ++ "(" ++ idxVar ++ ");\n"

/-- Modelled from the spec: `ShaderIndicesHelper::IndicesSet` (declared outside
the provided sources); text depends only on the variable name and the axis. -/
def indicesSet (varName : String) (axis : Nat) (v : String) : String :=
  varName ++ "[" ++ toString axis ++ "] = " ++ v ++ ";"

/-- Modelled from the spec: `ShaderIndicesHelper::IndicesToOffset` (declared
outside the provided sources); text depends only on the variable name and its
rank. -/
def indicesToOffset (name : String) (rank : Nat) (varName : String) : String :=
  name ++ "_indices_to_offset_rank" ++ toString rank ++ "(" ++ varName ++ ")"

/-- Modelled from the spec: `ShaderVariableHelper::SetByOffset` (declared
outside the provided sources); text depends only on the variable name and the
argument expressions. -/
def setByOffset (name offsetExpr valueExpr : String) : String :=
  name ++ "[" ++ offsetExpr ++ "] = " ++ valueExpr ++ ";\n"

/-- Faithful port of `CalcResult(components, a_components, output_number)`
(matmul.cc lines 51-66): the fused-multiply-add accumulation fragment of the
native shader. -/
def CalcResult (components aComponents outputNumber : Nat) : String :=
  "var a_data: a_value_t;\n" ++
  String.join ((List.range aComponents).map (fun i =>
    "let b_data" ++ toString i ++ " = b[(b_offset + (k + " ++ toString i ++
      ") * uniforms.N + col) / " ++ toString components ++ "];\n")) ++
  String.join ((List.range outputNumber).map (fun i =>
    "a_data = a[(a_offset + (row + " ++ toString i ++ ") * uniforms.K + k) / " ++
      toString aComponents ++ "];\n" ++
    String.join ((List.range aComponents).map (fun j =>
      "values[" ++ toString i ++ "] = fma(b_value_t(a_data" ++
        (if aComponents = 1 then "" else "[" ++ toString j ++ "]") ++
        "), b_data" ++ toString j ++ ", values[" ++ toString i ++ "]);\n"))))

/-- Faithful port of the `MainFunctionBody` assembled by
`MatMulNativeProgram::GenerateShaderCode` (matmul.cc lines 68-119).  The
`ShaderHelper` fragments it splices in are the spec-modelled functions above,
each depending only on names and ranks.  `aRank`/`bRank` are the ranks of the
program inputs, `batchRank` the rank of the `batch_dims` indices; `components`
and `aComponents` are the component counts of input `b` and input `a`
respectively (as passed by `AddInputs`).  Note the conditional at line 92: the
`batch_indices` declaration is emitted iff `output_size_ != 2`. -/
def nativeShaderSource (aRank bRank batchRank components aComponents
    outputNumber outputSize : Nat) (hasBias : Bool) : String :=
  let processBias := if hasBias then "value += output_value_t(bias[row +i]);" else ""
  guardAgainstOOB "uniforms.output_size" ++
  "let col = (global_idx % (uniforms.N / " ++ toString components ++ ")) * " ++
    toString components ++ ";\n" ++
  "var index1 = global_idx / (uniforms.N / " ++ toString components ++ ");\n" ++
  "let stride1 = uniforms.M / " ++ toString outputNumber ++ ";\n" ++
  "let row = (index1 % stride1) * " ++ toString outputNumber ++ ";\n" ++
  "let batch = index1 / stride1;\n" ++
  (if outputSize ≠ 2 then
    "let batch_indices = " ++ offsetToIndices "batch_dims" batchRank "batch" ++ ";\n"
   else "") ++
  "var a_indices: a_indices_t;\n" ++
  convertBatchIndices "a" (aRank - 2) batchRank "batch_indices" ++
  indicesSet "a_indices" (aRank - 2) "0" ++ "\n" ++
  indicesSet "a_indices" (aRank - 1) "0" ++ "\n" ++
  "let a_offset = " ++ indicesToOffset "a" aRank "a_indices" ++ " * " ++
    toString aComponents ++ ";\n" ++
  "var b_indices: b_indices_t;\n" ++
  convertBatchIndices "b" (bRank - 2) batchRank "batch_indices" ++
  indicesSet "b_indices" (bRank - 2) "0" ++ "\n" ++
  indicesSet "b_indices" (bRank - 1) "0" ++ "\n" ++
  "let b_offset = " ++ indicesToOffset "b" bRank "b_indices" ++ "*" ++
    toString components ++ ";\n" ++
  "var values: array<output_value_t, " ++ toString outputNumber ++ ">;\n" ++
  "for (var k: u32 = 0u; k < uniforms.K; k = k + " ++ toString aComponents ++
    ") \x7b\n" ++
  CalcResult components aComponents outputNumber ++ "\n" ++
  "\x7d\n" ++
  "for (var i = 0u; i < " ++ toString outputNumber ++ "u; i++) \x7b\n" ++
  "  var value = values[i];\n" ++
  processBias ++ "\n" ++
  "  let cur_indices = output_indices_t(batch, row + i, col/" ++
    toString components ++ ");\n" ++
  "  let offset = " ++ indicesToOffset "output" 3 "cur_indices" ++ ";\n" ++
  setByOffset "output" "offset" "value" ++
  "\x7d\n"

/-- The two kernel strategies of `MatMul::ComputeInternal`. -/
inductive Strategy where
  | native
  | packed
deriving DecidableEq, Repr

/-- Observable external actions performed by `MatMul::ComputeInternal`:
`runProgram` is `context.RunProgram(program)` (submission of the generated
program with its dispatch geometry); `readback` is the `PrintGPUTensor` call
(a GPU-to-CPU `CopyTensor` of the output followed by logging, a
synchronization point). -/
inductive Effect where
  | runProgram
  | readback
deriving DecidableEq, Repr

/-- Parameters computed on the native path (matmul.cc lines 145-197). -/
structure NativeParams where
  components : Nat
  aComponents : Nat
  outputNumber : Nat
  outputSize : Nat
  batchSize : Nat
  shaderOutputShape : List Nat
  /-- `SetDispatchGroupSize((uint32_t)ceil(float(output_size) / 64))`. -/
  dispatchGroups : Nat
deriving DecidableEq, Repr

/-- Parameters computed on the packed path (matmul.cc lines 200-313), after the
optional batched-vector-times-matrix rewrite. -/
structure PackedParams where
  aShape : List Nat
  bShape : List Nat
  outputShape : List Nat
  dimAOuter : Nat
  dimInner : Nat
  dimBOuter : Nat
  isVec4 : Bool
  components : Nat
  elementsPerThread : List Nat
  batchSize : Nat
deriving DecidableEq, Repr

/-- The observable result of one `MatMul::ComputeInternal` call. -/
structure ComputeResult where
  strategy : Strategy
  rewriteApplied : Bool
  nativeParams : Option NativeParams
  packedParams : Option PackedParams
  /-- The structural cache key: strategy tag, the `CacheHint` fields, the
  bias-presence flag and the input ranks (the framework folds type/rank
  metadata into the key). -/
  cacheKey : List String
  /-- Generated shader source (modelled for the native program, whose
  generator is in the provided sources). -/
  sourceText : Option String
  effects : List Effect
  /-- The shape of the output tensor when the call returns
  (`output_tensor->Reshape(helper.OutputShape())` runs on both paths). -/
  finalShape : List Nat
deriving DecidableEq, Repr

/-- Shallow embedding of `MatMul::ComputeInternal` (matmul.cc lines 121-322):
shape resolution via `MatMulComputeHelper`, strategy selection
(`n < 8 && k < 8`), per-strategy parameter derivation, cache key and (native)
shader source construction, program submission and the unconditional
`PrintGPUTensor` readback, and the final `Reshape` back to the resolved output
shape.  Returns `none` when shape resolution fails. -/
def computeMatMul (aShape bShape : List Nat) (hasBias : Bool) :
    Option ComputeResult :=
  (matmulComputeHelper aShape bShape).map (fun helper =>
    let m := helper.M
    let n := helper.N
    let k := helper.K
    if n < 8 ∧ k < 8 then
      -- MatMulNativeProgram path (lines 145-197)
      let components := GetMaxComponents n
      let aComponents := GetMaxComponents k
      let outputNumber := GetMaxComponents m
      let outputSize := helper.outputShape.prod / components / outputNumber
      let outputRank := helper.outputShape.length
      let outerDims := if outputRank > 2 then helper.outputShape.take (outputRank - 2)
                       else []
      let batchSize := outerDims.prod
      { strategy := Strategy.native
        rewriteApplied := false
        nativeParams := some
          { components := components
            aComponents := aComponents
            outputNumber := outputNumber
            outputSize := outputSize
            batchSize := batchSize
            shaderOutputShape := [batchSize, m, n / components]
            dispatchGroups := dispatchFloat outputSize 64 }
        packedParams := none
        cacheKey := ["Native", toString components, toString aComponents,
                     toString outputNumber, toString hasBias,
                     toString aShape.length, toString bShape.length]
        sourceText := some (nativeShaderSource aShape.length bShape.length
          outerDims.length components aComponents outputNumber outputSize hasBias)
        effects := [Effect.runProgram, Effect.readback]
        finalShape := helper.outputShape }
    else
      -- MatMulProgram (packed) path (lines 200-321)
      let batchA := sizeToDimMinus2 aShape
      let batchB := sizeToDimMinus2 bShape
      let mValue := helper.outputShape.getD (helper.outputShape.length - 2) 0
      let doRewrite : Bool := decide (batchA ≠ 1 ∧ mValue = 1 ∧ batchB = 1)
      let aShape2 := if doRewrite then [1, batchA, k] else aShape
      let bShape2 := if doRewrite then [1, k, n] else bShape
      let outputShape2 := if doRewrite then [1, batchA, n] else helper.outputShape
      let outerDims := if outputShape2.length > 2 then
                         outputShape2.take (outputShape2.length - 2)
                       else []
      let batchSize := outerDims.prod
      let dimAOuter := aShape2.getD (aShape2.length - 2) 0
      let dimInner := aShape2.getD (aShape2.length - 1) 0
      let dimBOuter := bShape2.getD (bShape2.length - 1) 0
      let isVec4 : Bool := decide (dimInner % 4 = 0 ∧ dimBOuter % 4 = 0)
      let elementsPerThread : List Nat := if dimAOuter ≤ 8 then [4, 1, 1]
                                          else [4, 4, 1]
      let components := if isVec4 then 4 else 1
      { strategy := Strategy.packed
        rewriteApplied := doRewrite
        nativeParams := none
        packedParams := some
          { aShape := aShape2
            bShape := bShape2
            outputShape := outputShape2
            dimAOuter := dimAOuter
            dimInner := dimInner
            dimBOuter := dimBOuter
            isVec4 := isVec4
            components := components
            elementsPerThread := elementsPerThread
            batchSize := batchSize }
        cacheKey := ["Packed",
                     String.intercalate "-" (elementsPerThread.map toString),
                     toString isVec4, toString hasBias,
                     toString aShape.length, toString bShape.length]
        sourceText := none
        effects := [Effect.runProgram, Effect.readback]
        finalShape := helper.outputShape })

/-- The strategy selected for a given input pair. -/
def strategyOf (aShape bShape : List Nat) (hasBias : Bool) : Option Strategy :=
  (computeMatMul aShape bShape hasBias).map ComputeResult.strategy

end OrtMatMul

namespace OrtNms

/-- One box: the four entries `boxes_data[4 * box_index + j]`, `j = 0..3`.
The generic scalar type `T` of `SuppressByIOU` is modelled by `ℚ` (an ordered
field with exact arithmetic; every comparison and early return in the source
is a direct comparison of computed values). -/
structure Box where
  c0 : ℚ
  c1 : ℚ
  c2 : ℚ
  c3 : ℚ
deriving DecidableEq

/-- Faithful port of `MaxMin(lhs, rhs, min, max)`
(non_max_suppression_helper.h lines 52-62): returns `(min, max)`; when
`lhs >= rhs` the minimum is `rhs` and the maximum is `lhs`. -/
def maxMin (lhs rhs : ℚ) : ℚ × ℚ :=
  if rhs ≤ lhs then (rhs, lhs) else (lhs, rhs)

/-- The corner coordinates `(x_min, x_max, y_min, y_max)` of a box, per the
`center_point_box` branch of `SuppressByIOU` (lines 80-102): mode 0 sorts the
`[y1, x1, y2, x2]` corner format via `MaxMin`; any other mode treats the data
as `[x_center, y_center, width, height]`. -/
def corners (b : Box) (centerPointBox : ℕ) : ℚ × ℚ × ℚ × ℚ :=
  if centerPointBox = 0 then
    let xm := maxMin b.c1 b.c3
    let ym := maxMin b.c0 b.c2
    (xm.1, xm.2, ym.1, ym.2)
  else
    let widthHalf := b.c2 / 2
    let heightHalf := b.c3 / 2
    (b.c0 - widthHalf, b.c0 + widthHalf, b.c1 - heightHalf, b.c1 + heightHalf)

/-- `intersection_area` as computed at lines 104-110: the product of the
clamped-to-zero overlaps of the x and y extents. -/
def intersectionArea (b1 b2 : Box) (centerPointBox : ℕ) : ℚ :=
  let q1 := corners b1 centerPointBox
  let q2 := corners b2 centerPointBox
  max (min q1.2.1 q2.2.1 - max q1.1 q2.1) 0 *
    max (min q1.2.2.2 q2.2.2.2 - max q1.2.2.1 q2.2.2.1) 0

/-- The (signed) area `(x_max - x_min) * (y_max - y_min)` of one box as
computed at lines 116-117. -/
def boxArea (b : Box) (centerPointBox : ℕ) : ℚ :=
  let q := corners b centerPointBox
  (q.2.1 - q.1) * (q.2.2.2 - q.2.2.1)

/-- `union_area = area1 + area2 - intersection_area` (line 118). -/
def unionArea (b1 b2 : Box) (centerPointBox : ℕ) : ℚ :=
  boxArea b1 centerPointBox + boxArea b2 centerPointBox -
    intersectionArea b1 b2 centerPointBox

/-- Faithful port of `SuppressByIOU` (non_max_suppression_helper.h lines
64-127): returns `false` when the intersection area is non-positive, `false`
when either box area or the union area is non-positive, and otherwise compares
`intersection_area / union_area` against the threshold with a strict `>`. -/
def SuppressByIOU (b1 b2 : Box) (centerPointBox : ℕ) (iouThreshold : ℚ) : Bool :=
  let ia := intersectionArea b1 b2 centerPointBox
  if ia ≤ 0 then false
  else
    let area1 := boxArea b1 centerPointBox
    let area2 := boxArea b2 centerPointBox
    let ua := area1 + area2 - ia
    if area1 ≤ 0 ∨ area2 ≤ 0 ∨ ua ≤ 0 then false
    else decide (iouThreshold < ia / ua)

end OrtNms

namespace OrtMatMul

/-- A throwaway default used only with `Option.getD` on options that are
provably `some`. -/
def defaultResult : ComputeResult :=
  { strategy := Strategy.native, rewriteApplied := false, nativeParams := none,
    packedParams := none, cacheKey := [], sourceText := none, effects := [],
    finalShape := [] }
lemma matmulComputeHelper_fields {a b : List Nat} {h : MatMulShapeInfo}
    (hh : matmulComputeHelper a b = some h) :
    2 ≤ a.length ∧ 2 ≤ b.length ∧
    h.M = a.getD (a.length - 2) 0 ∧
    h.N = b.getD (b.length - 1) 0 ∧
    h.K = a.getD (a.length - 1) 0 ∧
    ∃ outer, h.outputShape = outer ++ [h.M, h.N] := by
  unfold matmulComputeHelper at hh
  split at hh
  case isTrue hc =>
    dsimp only at hh
    split at hh
    case isTrue hk =>
      rw [Option.map_eq_some'] at hh
      obtain ⟨outer, _, rfl⟩ := hh
      exact ⟨hc.1, hc.2, rfl, rfl, rfl, outer, rfl⟩
    case isFalse => exact absurd hh (by simp)
  case isFalse => exact absurd hh (by simp)

lemma getD_penultimate (outer : List Nat) (m n : Nat) :
    (outer ++ [m, n]).getD ((outer ++ [m, n]).length - 2) 0 = m := by
  induction outer with
  | nil => rfl
  | cons x xs ih =>
    have hlen : (x :: xs ++ [m, n]).length - 2 = ((xs ++ [m, n]).length - 2) + 1 := by
      simp only [List.cons_append, List.length_cons, List.length_append,
        List.length_cons, List.length_nil]
      omega
    rw [hlen]
    simpa using ih

/-- C1: for every pair of resolved dimensions N and K, `ComputeMatMul` selects
the Native strategy iff `N < 8` and `K < 8`, and the Packed strategy
otherwise; in particular `N=8,K=7` and `N=7,K=8` both select Packed while
`N=7,K=7` selects Native. -/
theorem C1_strategy_selection :
    (∀ a b bias h, matmulComputeHelper a b = some h →
      strategyOf a b bias =
        some (if h.N < 8 ∧ h.K < 8 then Strategy.native else Strategy.packed)) ∧
    strategyOf [1, 7] [7, 8] false = some Strategy.packed ∧
    strategyOf [1, 8] [8, 7] false = some Strategy.packed ∧
    strategyOf [1, 7] [7, 7] false = some Strategy.native := by
  refine ⟨?_, by decide, by decide, by decide⟩
  intro a b bias h hh
  unfold strategyOf computeMatMul
  rw [hh]
  simp only [Option.map_some']
  by_cases hc : h.N < 8 ∧ h.K < 8
  · rw [if_pos hc, if_pos hc]
  · rw [if_neg hc, if_neg hc]

/-- Witness for C1 at `A = [1,7]`, `B = [7,7]` (N = K = 7). -/
theorem C1_strategy_selection_witness :
    matmulComputeHelper [1, 7] [7, 7] =
        some { M := 1, N := 7, K := 7, outputShape := [1, 7] } ∧
    strategyOf [1, 7] [7, 7] false =
      some (if (7 : Nat) < 8 ∧ (7 : Nat) < 8 then Strategy.native
            else Strategy.packed) := by
  refine ⟨by decide, ?_⟩
  exact C1_strategy_selection.1 [1, 7] [7, 7] false
    { M := 1, N := 7, K := 7, outputShape := [1, 7] } (by decide)

/-- C2 counterexample: at `A = [0,4]`, `B = [4,4]` the resolved output shape
`[0,4]` has size 0, yet the call still builds a native program and performs
both the `RunProgram` submission and the readback — the claimed no-op
short-circuit does not exist in the code. -/
theorem C2_counterexample :
    (computeMatMul [0, 4] [4, 4] false).map
        (fun r => (r.finalShape.prod, r.nativeParams.isSome, r.effects)) =
      some (0, true, [Effect.runProgram, Effect.readback]) := by
  decide

/-- C2 (amended): for every input pair whose resolved output shape has size 0,
`ComputeMatMul` still produces the zero-size output shape but does NOT skip
kernel generation or dispatch: the per-strategy program parameters are
computed and `RunProgram` (followed by the readback) is invoked exactly as in
the non-empty case. -/
theorem C2_zero_size_still_submits :
    ∀ a b bias r, computeMatMul a b bias = some r → r.finalShape.prod = 0 →
      (r.nativeParams.isSome = true ∨ r.packedParams.isSome = true) ∧
        r.effects = [Effect.runProgram, Effect.readback] := by
  intro a b bias r hr _
  unfold computeMatMul at hr
  cases hh : matmulComputeHelper a b with
  | none => rw [hh] at hr; exact absurd hr (by simp)
  | some h =>
    rw [hh, Option.map_some'] at hr
    injection hr with hr2
    subst hr2
    dsimp only
    split
    · exact ⟨Or.inl rfl, rfl⟩
    · exact ⟨Or.inr rfl, rfl⟩

/-- Witness for C2 (amended) at `A = [0,4]`, `B = [4,4]`. -/
theorem C2_zero_size_witness :
    computeMatMul [0, 4] [4, 4] false =
        some ((computeMatMul [0, 4] [4, 4] false).getD defaultResult) ∧
    ((computeMatMul [0, 4] [4, 4] false).getD defaultResult).finalShape.prod = 0 ∧
    ((((computeMatMul [0, 4] [4, 4] false).getD defaultResult).nativeParams.isSome = true ∨
       ((computeMatMul [0, 4] [4, 4] false).getD defaultResult).packedParams.isSome = true) ∧
      ((computeMatMul [0, 4] [4, 4] false).getD defaultResult).effects =
        [Effect.runProgram, Effect.readback]) := by
  have h1 : computeMatMul [0, 4] [4, 4] false =
      some ((computeMatMul [0, 4] [4, 4] false).getD defaultResult) := rfl
  have h2 : ((computeMatMul [0, 4] [4, 4] false).getD defaultResult).finalShape.prod = 0 := by
    decide
  exact ⟨h1, h2, C2_zero_size_still_submits [0, 4] [4, 4] false _ h1 h2⟩

/-- C3 counterexample: at `A = [2,1,4]`, `B = [4,4]` we have `M = 1`,
`batchA = 2 > 1`, `batchB = 1`, so the claim says the batched-vector rewrite
applies; but the Native strategy is selected (`N = K = 4 < 8`) and the code
returns before ever reaching the rewrite, so it is not applied. -/
theorem C3_counterexample :
    (computeMatMul [2, 1, 4] [4, 4] false).map
        (fun r => (r.rewriteApplied, r.strategy)) =
      some (false, Strategy.native) ∧
    (matmulComputeHelper [2, 1, 4] [4, 4]).map MatMulShapeInfo.M = some 1 ∧
    sizeToDimMinus2 [2, 1, 4] = 2 ∧ sizeToDimMinus2 [4, 4] = 1 := by
  decide

/-- C3 (amended): the batched-vector-times-matrix rewrite is applied iff the
Packed strategy is selected AND `M == 1` AND `batchA != 1` AND `batchB == 1`
(the code is only reached on the Packed path and tests `batchA != 1`, which
differs from the claimed `batchA > 1` only at `batchA = 0`); when it applies,
the shapes are rewritten to `A' = [1, batchA, K]`, `B' = [1, K, N]`,
`output' = [1, batchA, N]`. -/
theorem C3_rewrite_condition :
    ∀ a b bias h r, matmulComputeHelper a b = some h →
      computeMatMul a b bias = some r →
      (r.rewriteApplied = true ↔
        r.strategy = Strategy.packed ∧ h.M = 1 ∧
          sizeToDimMinus2 a ≠ 1 ∧ sizeToDimMinus2 b = 1) ∧
      (r.rewriteApplied = true →
        r.packedParams.map (fun p => (p.aShape, p.bShape, p.outputShape)) =
          some ([1, sizeToDimMinus2 a, h.K], [1, h.K, h.N],
                [1, sizeToDimMinus2 a, h.N])) := by
  intro a b bias h r hh hr
  have hm : h.outputShape.getD (h.outputShape.length - 2) 0 = h.M := by
    obtain ⟨-, -, -, -, -, outer, ho⟩ := matmulComputeHelper_fields hh
    rw [ho]
    exact getD_penultimate outer h.M h.N
  unfold computeMatMul at hr
  rw [hh, Option.map_some'] at hr
  injection hr with hr2
  subst hr2
  dsimp only
  split
  case isTrue hc =>
    refine ⟨⟨fun hfalse => absurd hfalse (by simp), ?_⟩,
            fun hfalse => absurd hfalse (by simp)⟩
    rintro ⟨hstrat, -⟩
    exact absurd hstrat (by simp)
  case isFalse hc =>
    rw [hm]
    constructor
    · constructor
      · intro hd
        dsimp only at hd
        obtain ⟨h1, h2, h3⟩ := of_decide_eq_true hd
        exact ⟨rfl, h2, h1, h3⟩
      · rintro ⟨-, h2, h1, h3⟩
        exact decide_eq_true ⟨h1, h2, h3⟩
    · intro hdr
      dsimp only at hdr
      dsimp only
      simp only [hdr]
      simp

/-- Witness for C3 (amended) at `A = [2,1,16]`, `B = [16,16]` (Packed path,
`M = 1`, `batchA = 2`, `batchB = 1`: the rewrite applies). -/
theorem C3_rewrite_condition_witness :
    matmulComputeHelper [2, 1, 16] [16, 16] =
        some { M := 1, N := 16, K := 16, outputShape := [2, 1, 16] } ∧
    computeMatMul [2, 1, 16] [16, 16] false =
        some ((computeMatMul [2, 1, 16] [16, 16] false).getD defaultResult) ∧
    ((((computeMatMul [2, 1, 16] [16, 16] false).getD defaultResult).rewriteApplied = true ↔
        ((computeMatMul [2, 1, 16] [16, 16] false).getD defaultResult).strategy =
            Strategy.packed ∧
          (1 : Nat) = 1 ∧ sizeToDimMinus2 [2, 1, 16] ≠ 1 ∧
          sizeToDimMinus2 [16, 16] = 1) ∧
      (((computeMatMul [2, 1, 16] [16, 16] false).getD defaultResult).rewriteApplied = true →
        (((computeMatMul [2, 1, 16] [16, 16] false).getD defaultResult).packedParams.map
            (fun p => (p.aShape, p.bShape, p.outputShape)) =
          some ([1, sizeToDimMinus2 [2, 1, 16], 16], [1, 16, 16],
                [1, sizeToDimMinus2 [2, 1, 16], 16])))) := by
  have h1 : computeMatMul [2, 1, 16] [16, 16] false =
      some ((computeMatMul [2, 1, 16] [16, 16] false).getD defaultResult) := rfl
  exact ⟨by decide, h1,
    C3_rewrite_condition [2, 1, 16] [16, 16] false
      { M := 1, N := 16, K := 16, outputShape := [2, 1, 16] } _ (by decide) h1⟩

set_option maxRecDepth 100000 in
/-- C4 (code bug): the invocations `A=[2,1,1], B=[1,1]` and `A=[3,1,1],
B=[1,1]` (both Native, no bias) have identical cache keys — same strategy tag,
component widths `(1,1,1)`, bias flag and ranks — yet the generated shader
source texts differ: `GenerateShaderCode` emits the `batch_indices`
declaration only when `output_size_ != 2` (matmul.cc line 92), and the two
calls have `output_size` 2 and 3 respectively.  Concrete dimension values thus
leak into the source text without being part of the key. -/
theorem C4_cache_key_collision :
    (computeMatMul [2, 1, 1] [1, 1] false).map ComputeResult.cacheKey =
      (computeMatMul [3, 1, 1] [1, 1] false).map ComputeResult.cacheKey ∧
    (computeMatMul [2, 1, 1] [1, 1] false).map ComputeResult.sourceText ≠
      (computeMatMul [3, 1, 1] [1, 1] false).map ComputeResult.sourceText ∧
    (computeMatMul [2, 1, 1] [1, 1] false).map
        (fun r => r.nativeParams.map NativeParams.outputSize) = some (some 2) ∧
    (computeMatMul [3, 1, 1] [1, 1] false).map
        (fun r => r.nativeParams.map NativeParams.outputSize) = some (some 3) := by
  refine ⟨by decide, by decide, by decide, by decide⟩

/-- C5 counterexample: at `A = [9,1,16]`, `B = [16,16]` the Packed path is
taken with `M = 1 ≤ 8`, so the claim demands `elements_per_thread = (4,1,1)`;
but the batched-vector rewrite makes `dim_a_outer = batchA = 9 > 8` and the
code selects `(4,4,1)`. -/
theorem C5_counterexample :
    (computeMatMul [9, 1, 16] [16, 16] false).map
        (fun r => (r.strategy, r.packedParams.map PackedParams.elementsPerThread)) =
      some (Strategy.packed, some [4, 4, 1]) ∧
    (matmulComputeHelper [9, 1, 16] [16, 16]).map MatMulShapeInfo.M = some 1 := by
  refine ⟨by decide, by decide⟩

/-- C5 (amended): on the Packed path, `is_vec4` holds iff `K % 4 == 0` and
`N % 4 == 0`; `components` is 4 when `is_vec4` and 1 otherwise; and
`elements_per_thread` is `(4,1,1)` when `dim_a_outer <= 8` and `(4,4,1)`
otherwise, where `dim_a_outer` is the second-to-last dimension of the
(possibly rewritten) A shape: it equals `M` when the batched-vector rewrite
was not applied and `batchA` when it was. -/
theorem C5_packed_params :
    ∀ a b bias h r p, matmulComputeHelper a b = some h →
      computeMatMul a b bias = some r → r.packedParams = some p →
      (p.isVec4 = true ↔ h.K % 4 = 0 ∧ h.N % 4 = 0) ∧
      p.components = (if p.isVec4 then 4 else 1) ∧
      p.elementsPerThread = (if p.dimAOuter ≤ 8 then [4, 1, 1] else [4, 4, 1]) ∧
      (r.rewriteApplied = false → p.dimAOuter = h.M) ∧
      (r.rewriteApplied = true → p.dimAOuter = sizeToDimMinus2 a) := by
  intro a b bias h r p hh hr hp
  obtain ⟨ha2, hb2, hM, hN, hK, outer, ho⟩ := matmulComputeHelper_fields hh
  unfold computeMatMul at hr
  rw [hh, Option.map_some'] at hr
  injection hr with hr2
  subst hr2
  dsimp only at hp ⊢
  revert hp
  split
  case isTrue hc => intro hp; exact absurd hp (by simp)
  case isFalse hc =>
    intro hp
    dsimp only at hp
    injection hp with hp2
    subst hp2
    by_cases hP : sizeToDimMinus2 a ≠ 1 ∧
        h.outputShape.getD (h.outputShape.length - 2) 0 = 1 ∧ sizeToDimMinus2 b = 1
    · have hd : (decide (sizeToDimMinus2 a ≠ 1 ∧
          h.outputShape.getD (h.outputShape.length - 2) 0 = 1 ∧
          sizeToDimMinus2 b = 1)) = true := decide_eq_true hP
      rw [hd]
      refine ⟨⟨fun hx => of_decide_eq_true hx, fun hx => decide_eq_true hx⟩,
        rfl, rfl, fun hx => absurd hx (by simp), fun _ => rfl⟩
    · have hd : (decide (sizeToDimMinus2 a ≠ 1 ∧
          h.outputShape.getD (h.outputShape.length - 2) 0 = 1 ∧
          sizeToDimMinus2 b = 1)) = false := decide_eq_false hP
      rw [hd]
      refine ⟨⟨fun hx => ?_, fun hx => ?_⟩,
        rfl, rfl, fun _ => hM.symm, fun hx => absurd hx (by simp)⟩
      · rw [hK, hN]
        exact of_decide_eq_true hx
      · rw [hK, hN] at hx
        exact decide_eq_true hx

/-- Witness for C5 (amended) at `A = [2,3]`, `B = [3,16]` (Packed path, no
rewrite, `K = 3`, `N = 16`, `dim_a_outer = M = 2`). -/
theorem C5_packed_params_witness :
    matmulComputeHelper [2, 3] [3, 16] =
        some { M := 2, N := 16, K := 3, outputShape := [2, 16] } ∧
    computeMatMul [2, 3] [3, 16] false =
        some ((computeMatMul [2, 3] [3, 16] false).getD defaultResult) ∧
    ((computeMatMul [2, 3] [3, 16] false).getD defaultResult).packedParams =
        some { aShape := [2, 3], bShape := [3, 16], outputShape := [2, 16],
               dimAOuter := 2, dimInner := 3, dimBOuter := 16, isVec4 := false,
               components := 1, elementsPerThread := [4, 1, 1], batchSize := 1 } ∧
    (({ aShape := [2, 3], bShape := [3, 16], outputShape := [2, 16],
        dimAOuter := 2, dimInner := 3, dimBOuter := 16, isVec4 := false,
        components := 1, elementsPerThread := [4, 1, 1],
        batchSize := 1 : PackedParams }.isVec4 = true ↔
        3 % 4 = 0 ∧ 16 % 4 = 0) ∧
      (1 : Nat) = (if False then 4 else 1) ∧
      ([4, 1, 1] : List Nat) = (if (2 : Nat) ≤ 8 then [4, 1, 1] else [4, 4, 1]) ∧
      (((computeMatMul [2, 3] [3, 16] false).getD defaultResult).rewriteApplied = false →
        (2 : Nat) = 2) ∧
      (((computeMatMul [2, 3] [3, 16] false).getD defaultResult).rewriteApplied = true →
        (2 : Nat) = sizeToDimMinus2 [2, 3])) := by
  have h1 : computeMatMul [2, 3] [3, 16] false =
      some ((computeMatMul [2, 3] [3, 16] false).getD defaultResult) := rfl
  have h2 : ((computeMatMul [2, 3] [3, 16] false).getD defaultResult).packedParams =
      some { aShape := [2, 3], bShape := [3, 16], outputShape := [2, 16],
             dimAOuter := 2, dimInner := 3, dimBOuter := 16, isVec4 := false,
             components := 1, elementsPerThread := [4, 1, 1], batchSize := 1 } := by
    decide
  have h3 := C5_packed_params [2, 3] [3, 16] false
    { M := 2, N := 16, K := 3, outputShape := [2, 16] } _ _ (by decide) h1 h2
  exact ⟨by decide, h1, h2, by simpa using h3⟩

/-- C6: `GetMaxComponents d` is 4 when `d % 4 == 0`, else 2 when `d % 2 == 0`,
else 1 — the largest value in `{4,2,1}` dividing `d`; on the Native path
`components = GetMaxComponents N`, `a_components = GetMaxComponents K`,
`output_number = GetMaxComponents M`, and
`output_size = size(output_shape) / components / output_number`. -/
theorem C6_max_component_width :
    (∀ d, GetMaxComponents d =
        (if d % 4 = 0 then 4 else if d % 2 = 0 then 2 else 1)) ∧
    (∀ d, GetMaxComponents d ∣ d ∧
      ∀ c, c ∈ ([4, 2, 1] : List Nat) → c ∣ d → c ≤ GetMaxComponents d) ∧
    List.map GetMaxComponents [1, 2, 3, 4, 6, 7, 8, 12] =
      [1, 2, 1, 4, 2, 1, 4, 4] ∧
    (∀ a b bias h r p, matmulComputeHelper a b = some h →
      computeMatMul a b bias = some r → r.nativeParams = some p →
      p.components = GetMaxComponents h.N ∧
      p.aComponents = GetMaxComponents h.K ∧
      p.outputNumber = GetMaxComponents h.M ∧
      p.outputSize = h.outputShape.prod / p.components / p.outputNumber) := by
  refine ⟨fun d => rfl, fun d => ⟨?_, ?_⟩, by decide, ?_⟩
  · unfold GetMaxComponents
    split_ifs with h4 h2
    · exact Nat.dvd_of_mod_eq_zero h4
    · exact Nat.dvd_of_mod_eq_zero h2
    · exact one_dvd d
  · intro c hc hcd
    fin_cases hc
    · obtain ⟨e, rfl⟩ := hcd
      simp [GetMaxComponents, Nat.mul_mod_right]
    · obtain ⟨e, rfl⟩ := hcd
      unfold GetMaxComponents
      split_ifs with h4 h2
      · norm_num
      · norm_num
      · exact absurd (Nat.mul_mod_right 2 e) h2
    · unfold GetMaxComponents
      split_ifs <;> norm_num
  · intro a b bias h r p hh hr hp
    unfold computeMatMul at hr
    rw [hh, Option.map_some'] at hr
    injection hr with hr2
    subst hr2
    dsimp only at hp ⊢
    revert hp
    split
    case isTrue hc =>
      intro hp
      dsimp only at hp
      injection hp with hp2
      subst hp2
      exact ⟨rfl, rfl, rfl, rfl⟩
    case isFalse hc =>
      intro hp
      exact absurd hp (by simp)

/-- Witness for C6 at `d = 12` and at `A = [4,6]`, `B = [6,4]` (Native path:
`N = 4`, `K = 6`, `M = 4`). -/
theorem C6_max_component_width_witness :
    ((4 : Nat) ∣ 12 ∧ 4 ≤ GetMaxComponents 12) ∧
    matmulComputeHelper [4, 6] [6, 4] =
        some { M := 4, N := 4, K := 6, outputShape := [4, 4] } ∧
    computeMatMul [4, 6] [6, 4] false =
        some ((computeMatMul [4, 6] [6, 4] false).getD defaultResult) ∧
    ((computeMatMul [4, 6] [6, 4] false).getD defaultResult).nativeParams =
        some { components := 4, aComponents := 2, outputNumber := 4,
               outputSize := 1, batchSize := 1, shaderOutputShape := [1, 4, 1],
               dispatchGroups := 1 } ∧
    ((4 : Nat) = GetMaxComponents 4 ∧ (2 : Nat) = GetMaxComponents 6 ∧
      (4 : Nat) = GetMaxComponents 4 ∧
      (1 : Nat) = ([4, 4] : List Nat).prod / 4 / 4) := by
  have h1 : computeMatMul [4, 6] [6, 4] false =
      some ((computeMatMul [4, 6] [6, 4] false).getD defaultResult) := rfl
  have h2 : ((computeMatMul [4, 6] [6, 4] false).getD defaultResult).nativeParams =
      some { components := 4, aComponents := 2, outputNumber := 4,
             outputSize := 1, batchSize := 1, shaderOutputShape := [1, 4, 1],
             dispatchGroups := 1 } := by decide
  have h3 := C6_max_component_width.2.2.2 [4, 6] [6, 4] false
    { M := 4, N := 4, K := 6, outputShape := [4, 4] } _ _ (by decide) h1 h2
  exact ⟨⟨by decide, (C6_max_component_width.2.1 12).2 4 (by decide) (by decide)⟩,
    by decide, h1, h2, by simpa using h3⟩

/-- C7 (code bug): the dispatch grid is computed as
`(uint32_t)ceil(static_cast<float>(extent) / workgroup_size / elements_per_thread)`.
The float conversion rounds the extent to 24 significand bits, so at
`dim_b_outer = 2^24 + 1 = 16777217` (reachable, e.g. `A=[1,4]`,
`B=[4,16777217]`, whose `elements_per_thread` is `(4,1,1)`) the computed grid
with a workgroup width of 8 is 524288 while the exact ceiling is 524289: the
launch under-dispatches and the last column tile is never covered.  For
extents below `2^24` the float computation does equal the exact ceiling. -/
theorem C7_dispatch_float_rounding :
    rnd24 16777217 = 16777216 ∧
    dispatchFloat 16777217 (8 * 4) = 524288 ∧
    ceilDivNat 16777217 (8 * 4) = 524289 ∧
    (computeMatMul [1, 4] [4, 16777217] false).map
        (fun r => r.packedParams.map (fun p => (p.dimBOuter, p.elementsPerThread))) =
      some (some (16777217, [4, 1, 1])) ∧
    (∀ n d, n < 16777216 → dispatchFloat n d = ceilDivNat n d) := by
  refine ⟨by decide, by decide, by decide, by decide, ?_⟩
  intro n d hn
  unfold dispatchFloat rnd24
  rw [if_pos hn]

/-- Witness for C7's exactness clause at `n = 100`, `d = 32`. -/
theorem C7_dispatch_float_rounding_witness :
    (100 : Nat) < 16777216 ∧ dispatchFloat 100 32 = ceilDivNat 100 32 := by
  exact ⟨by decide, C7_dispatch_float_rounding.2.2.2.2 100 32 (by decide)⟩

/-- C8: on both strategies, and whether or not the batched-vector rewrite was
applied, the result tensor's externally visible shape when the call returns
equals the originally resolved `output_shape`
(`output_tensor->Reshape(helper.OutputShape())` runs on every path). -/
theorem C8_output_shape_restored :
    ∀ a b bias h r, matmulComputeHelper a b = some h →
      computeMatMul a b bias = some r → r.finalShape = h.outputShape := by
  intro a b bias h r hh hr
  unfold computeMatMul at hr
  rw [hh, Option.map_some'] at hr
  injection hr with hr2
  subst hr2
  dsimp only
  split
  · rfl
  · rfl

/-- Witness for C8 at `A = [3,1,16]`, `B = [16,16]` (Packed path, the rewrite
applies, yet the final shape is the resolved `[3,1,16]`). -/
theorem C8_output_shape_restored_witness :
    matmulComputeHelper [3, 1, 16] [16, 16] =
        some { M := 1, N := 16, K := 16, outputShape := [3, 1, 16] } ∧
    computeMatMul [3, 1, 16] [16, 16] false =
        some ((computeMatMul [3, 1, 16] [16, 16] false).getD defaultResult) ∧
    ((computeMatMul [3, 1, 16] [16, 16] false).getD defaultResult).finalShape =
      [3, 1, 16] := by
  have h1 : computeMatMul [3, 1, 16] [16, 16] false =
      some ((computeMatMul [3, 1, 16] [16, 16] false).getD defaultResult) := rfl
  exact ⟨by decide, h1,
    C8_output_shape_restored [3, 1, 16] [16, 16] false
      { M := 1, N := 16, K := 16, outputShape := [3, 1, 16] } _ (by decide) h1⟩

/-- C9 (code bug): every successful `ComputeInternal` call performs the
synchronizing `PrintGPUTensor` readback (a GPU-to-CPU `CopyTensor` of the
output) unconditionally after `RunProgram`, on both strategies — there is no
request flag at all, so the readback is on the ordinary hot path on every
call, contradicting the claim that it happens only when explicitly
requested. -/
theorem C9_unconditional_readback :
    (∀ a b bias r, computeMatMul a b bias = some r →
      Effect.readback ∈ r.effects) ∧
    (computeMatMul [1, 2] [2, 2] false).map ComputeResult.effects =
      some [Effect.runProgram, Effect.readback] := by
  refine ⟨?_, by decide⟩
  intro a b bias r hr
  unfold computeMatMul at hr
  cases hh : matmulComputeHelper a b with
  | none => rw [hh] at hr; exact absurd hr (by simp)
  | some h =>
    rw [hh, Option.map_some'] at hr
    injection hr with hr2
    subst hr2
    dsimp only
    split
    · simp
    · simp

/-- Witness for C9 at `A = [1,3]`, `B = [3,3]`. -/
theorem C9_unconditional_readback_witness :
    computeMatMul [1, 3] [3, 3] false =
        some ((computeMatMul [1, 3] [3, 3] false).getD defaultResult) ∧
    Effect.readback ∈
      ((computeMatMul [1, 3] [3, 3] false).getD defaultResult).effects := by
  have h1 : computeMatMul [1, 3] [3, 3] false =
      some ((computeMatMul [1, 3] [3, 3] false).getD defaultResult) := rfl
  exact ⟨h1, C9_unconditional_readback.1 [1, 3] [3, 3] false _ h1⟩

end OrtMatMul

namespace OrtNms

/-- C10: `SuppressByIOU` returns true only when the intersection area, both
box areas and the union area are all strictly positive and
`intersection / union` strictly exceeds `iou_threshold` (for every
`center_point_box` mode and every threshold, negative ones included);
consequently a box whose computed area is zero or negative is never
suppressed and never suppresses another box. -/
theorem C10_suppress_requires_positive_areas :
    (∀ b1 b2 cpb t, SuppressByIOU b1 b2 cpb t = true →
      0 < intersectionArea b1 b2 cpb ∧ 0 < boxArea b1 cpb ∧ 0 < boxArea b2 cpb ∧
      0 < unionArea b1 b2 cpb ∧
      t < intersectionArea b1 b2 cpb / unionArea b1 b2 cpb) ∧
    (∀ b1 b2 cpb t, (boxArea b1 cpb ≤ 0 ∨ boxArea b2 cpb ≤ 0) →
      SuppressByIOU b1 b2 cpb t = false) := by
  have main : ∀ b1 b2 cpb t, SuppressByIOU b1 b2 cpb t = true →
      0 < intersectionArea b1 b2 cpb ∧ 0 < boxArea b1 cpb ∧ 0 < boxArea b2 cpb ∧
      0 < unionArea b1 b2 cpb ∧
      t < intersectionArea b1 b2 cpb / unionArea b1 b2 cpb := by
    intro b1 b2 cpb t hs
    unfold SuppressByIOU at hs
    dsimp only at hs
    split at hs
    case isTrue => exact absurd hs (by simp)
    case isFalse h1 =>
      split at hs
      case isTrue => exact absurd hs (by simp)
      case isFalse h2 =>
        push_neg at h1 h2
        exact ⟨h1, h2.1, h2.2.1, h2.2.2, of_decide_eq_true hs⟩
  refine ⟨main, ?_⟩
  intro b1 b2 cpb t hdeg
  cases hs : SuppressByIOU b1 b2 cpb t
  · rfl
  · exfalso
    obtain ⟨-, ha1, ha2, -, -⟩ := main b1 b2 cpb t hs
    cases hdeg with
    | inl hdg => exact absurd ha1 (not_lt.mpr hdg)
    | inr hdg => exact absurd ha2 (not_lt.mpr hdg)

/-- Witness for C10: two identical unit boxes (corner format) with threshold
1/2 are suppressed, and a degenerate zero-height box is never suppressed even
with a negative threshold. -/
theorem C10_suppress_requires_positive_areas_witness :
    SuppressByIOU ⟨0, 0, 1, 1⟩ ⟨0, 0, 1, 1⟩ 0 (1 / 2) = true ∧
    (0 < intersectionArea ⟨0, 0, 1, 1⟩ ⟨0, 0, 1, 1⟩ 0 ∧
      0 < boxArea ⟨0, 0, 1, 1⟩ 0 ∧ 0 < boxArea ⟨0, 0, 1, 1⟩ 0 ∧
      0 < unionArea ⟨0, 0, 1, 1⟩ ⟨0, 0, 1, 1⟩ 0 ∧
      (1 / 2 : ℚ) < intersectionArea ⟨0, 0, 1, 1⟩ ⟨0, 0, 1, 1⟩ 0 /
        unionArea ⟨0, 0, 1, 1⟩ ⟨0, 0, 1, 1⟩ 0) ∧
    (boxArea ⟨0, 0, 0, 5⟩ 0 ≤ 0 ∨ boxArea ⟨0, 0, 1, 1⟩ 0 ≤ 0) ∧
    SuppressByIOU ⟨0, 0, 0, 5⟩ ⟨0, 0, 1, 1⟩ 0 (-1) = false := by
  have hs : SuppressByIOU ⟨0, 0, 1, 1⟩ ⟨0, 0, 1, 1⟩ 0 (1 / 2) = true := by
    norm_num [SuppressByIOU, intersectionArea, boxArea, corners, maxMin]
  have hdeg : boxArea ⟨0, 0, 0, 5⟩ 0 ≤ 0 ∨ boxArea (⟨0, 0, 1, 1⟩ : Box) 0 ≤ 0 := by
    left
    norm_num [boxArea, corners, maxMin]
  exact ⟨hs, C10_suppress_requires_positive_areas.1 _ _ _ _ hs, hdeg,
    C10_suppress_requires_positive_areas.2 ⟨0, 0, 0, 5⟩ ⟨0, 0, 1, 1⟩ 0 (-1) hdeg⟩

end OrtNms
